import Mathlib

/-!
Shallow embedding of the localization-editor workflow of the vscode-xp
extension (client/src/views/localization/localizationEditorViewProvider.ts)
and of the object-id helpers (client/src/helpers/KbHelper.ts).
-/

namespace VscodeXp

/-- Embeds the whitespace test of JavaScript `String.prototype.trim`
(restricted to the ASCII whitespace characters that occur in this code base). -/
def isJsWhitespace (c : Char) : Bool :=
  c = ' ' || c = '\t' || c = '\n' || c = '\r'

/-- Embeds JavaScript `s.trim()`: strips leading and trailing whitespace. -/
def jsTrim (s : String) : String :=
  String.mk (((s.data.dropWhile isJsWhitespace).reverse.dropWhile isJsWhitespace).reverse)

/-- Embeds JavaScript `s.substring(0, n)`: the first `n` characters of `s`. -/
def jsSubstringTo (s : String) (n : Nat) : String :=
  String.mk (s.data.take n)

namespace StringHelper

/-- Modelled from the spec: `StringHelper.textToOneLineAndTrim` (helpers/stringHelper.ts,
not in the excerpt) normalizes a locale text to a single line with surrounding whitespace
trimmed; each internal line-break character is collapsed to a space. -/
def textToOneLineAndTrim (s : String) : String :=
  jsTrim (String.mk (s.data.map (fun c => if c = '\n' || c = '\r' then ' ' else c)))

end StringHelper

namespace JsHelper

/-- Recursion helper for `findDuplicates`: `seen` holds the values already passed. -/
def findDuplicatesAux (seen : List String) : List String → Option String
  | [] => none
  | x :: xs => if x ∈ seen then some x else findDuplicatesAux (x :: seen) xs

/-- Modelled from the spec: `JsHelper.findDuplicates` (helpers/jsHelper.ts, not in the
excerpt) returns the first duplicate value encountered in input order — the first element
equal to some earlier element — or `none` when all values are distinct. -/
def findDuplicates (l : List String) : Option String :=
  findDuplicatesAux [] l

end JsHelper

/-- Rule verification status (`ContentItemStatus` of models/content/ruleBaseItem.ts),
restricted to the values the localization editor assigns. -/
inductive ContentItemStatus
  | Default
  | Verified
  | Unverified
  deriving DecidableEq, Repr

/-- Modelled from the spec: `LocalizationEntry` — a criterion plus display texts per
locale and an optional stable id (class `Localization` of models/content/localization.ts,
not in the excerpt). -/
structure Localization where
  criteria : String
  ruText : String
  enText : String
  localizationId : Option String
  deriving DecidableEq, Repr

/-- Modelled from the spec: `Localization.create(criteria, ruLocalization, enLocalization)`
constructs an entry with the given criterion and texts and no localization id yet. -/
def Localization.create (criteria ruLocalization enLocalization : String) : Localization :=
  ⟨criteria, ruLocalization, enLocalization, none⟩

/-- Modelled from the spec: `loc.setLocalizationId(id)` stores the stable id on the entry. -/
def Localization.setLocalizationId (loc : Localization) (locId : String) : Localization :=
  { loc with localizationId := some locId }

/-- `LocalizationExample` — the locale texts actually produced for a real event during a
test run (models/content/localization.ts). -/
structure LocalizationExample where
  ruText : String
  enText : String
  deriving DecidableEq, Repr

/-- The slice of `RuleBaseItem` state the localization editor reads and writes:
name, descriptions, localization entries, localization examples, icon path and status. -/
structure RuleBaseItem where
  name : String
  ruDescription : String
  enDescription : String
  localizations : List Localization
  localizationExamples : List LocalizationExample
  iconPath : String
  status : ContentItemStatus
  deriving DecidableEq, Repr

namespace KbHelper

/-- Embeds `KbHelper.generateRuleObjectId` (helpers/KbHelper.ts:19-23). The external
`crc-32` library function `crc32.str` is passed as the parameter `crc32str`; `Math.abs`
becomes `Int.natAbs`, `.toString()` decimal printing, and `.substring(0, 9)` is
`jsSubstringTo`. -/
def generateRuleObjectId (crc32str : String → Int) (ruleName contentPrefix : String) : String :=
  let objectId := jsSubstringTo (toString (crc32str ruleName).natAbs) 9
  contentPrefix ++ "-CR-" ++ objectId

/-- Embeds `KbHelper.generatePackageObjectId` (helpers/KbHelper.ts:25-29); identical to
`generateRuleObjectId` except for the `PKG` infix. -/
def generatePackageObjectId (crc32str : String → Int) (ruleName contentPrefix : String) : String :=
  let objectId := jsSubstringTo (toString (crc32str ruleName).natAbs) 9
  contentPrefix ++ "-PKG-" ++ objectId

end KbHelper

/-- The payload of a webview save message (`message.localizations`) as `saveLocalization`
reads it: the two rule descriptions plus parallel arrays of criteria, locale texts and ids. -/
structure LocalizationMessage where
  RuDescription : String
  EnDescription : String
  Criteria : List String
  RuLocalizations : List String
  EnLocalizations : List String
  LocalizationIds : List String
  deriving DecidableEq, Repr

/-- The entry batch built by `saveLocalization` (localizationEditorViewProvider.ts:286-297):
one `Localization` per criterion index, texts taken at the same index; the id at the same
index is kept only when non-empty after trimming (JavaScript truthiness of the string). -/
def constructedLocalizations (localization : LocalizationMessage) : List Localization :=
  let criteria := localization.Criteria.map (fun c => jsTrim c)
  let ruLocalizations := localization.RuLocalizations.map (fun c => StringHelper.textToOneLineAndTrim c)
  let enLocalizations := localization.EnLocalizations.map (fun c => StringHelper.textToOneLineAndTrim c)
  let localizationIds := localization.LocalizationIds.map (fun c => jsTrim c)
  criteria.mapIdx (fun index cr =>
    let ruLoc := ruLocalizations.getD index ""
    let enLoc := enLocalizations.getD index ""
    let loc := Localization.create cr ruLoc enLoc
    let locId := localizationIds.getD index ""
    if locId = "" then loc else loc.setLocalizationId locId)

/-- The observable result of one `saveLocalization` call: the rule state afterwards, the
duplicate criterion reported through `DialogHelper.showError` (if any), whether
`saveMetaInfoAndLocalizations` ran, and whether the success notice was shown. -/
structure SaveResult where
  rule : RuleBaseItem
  duplicateError : Option String
  persisted : Bool
  infoShown : Bool
  deriving DecidableEq, Repr

/-- Embeds `saveLocalization` (localizationEditorViewProvider.ts:262-308) as a state
transformer on the rule: both descriptions are trimmed and stored first; then criteria
and ids are trimmed and locale texts normalized; a duplicate criterion aborts with an
error dialog before any entry is built or persisted; otherwise the batch replaces the
rule's entries unless it is empty, and metainfo and localizations are saved. -/
def saveLocalization (rule : RuleBaseItem) (localization : LocalizationMessage)
    (informUser : Bool) : SaveResult :=
  let ruDescription := jsTrim localization.RuDescription
  let rule1 := { rule with ruDescription := ruDescription }
  let enDescription := jsTrim localization.EnDescription
  let rule2 := { rule1 with enDescription := enDescription }
  let criteria := localization.Criteria.map (fun c => jsTrim c)
  match JsHelper.findDuplicates criteria with
  | some firstDuplicate =>
      { rule := rule2, duplicateError := some firstDuplicate,
        persisted := false, infoShown := false }
  | none =>
      let localizations := constructedLocalizations localization
      let rule3 :=
        if localizations.length ≠ 0 then { rule2 with localizations := localizations }
        else rule2
      { rule := rule3, duplicateError := none, persisted := true, infoShown := informUser }

/-- Embeds the verification classification of the `buildLocalizations` command
(localizationEditorViewProvider.ts:219-225): UNVERIFIED when some produced example's
`ruText` is a default localization, VERIFIED otherwise. `TestHelper.isDefaultLocalization`
(not in the excerpt) is the externally defined fallback predicate, passed as a parameter. -/
def classifyVerification (isDefaultLocalization : String → Bool)
    (locExamples : List LocalizationExample) : ContentItemStatus :=
  if locExamples.any (fun le => isDefaultLocalization le.ruText) then
    ContentItemStatus.Unverified
  else
    ContentItemStatus.Verified

/-- A user's choice in the reuse dialog: the two buttons `USE_OLD_TESTS_RESULT` and
`RESTART_TESTS` offered by `DialogHelper.showInfo`. -/
inductive PromptChoice
  | useOldTestsResult
  | restartTests
  deriving DecidableEq, Repr

/-- The externally determined circumstances of one `getLocalizationExamples` call: the
state of the temporary artifact directory, the answer the user would give to the reuse
prompt (`none` = dialog dismissed), the test-runner verdict, and the examples the
extractor would derive from the artifact directory. -/
structure LocEnv where
  tmpDirExists : Bool
  tmpDirEntryCount : Nat
  promptResult : Option PromptChoice
  testsStatus : Bool
  extractedExamples : List LocalizationExample
  deriving DecidableEq, Repr

/-- The outcome of `getLocalizationExamples`: cancelled (`OperationCanceledException`),
failed integration tests (`XpException`), or the produced examples. -/
inductive LocOutcome
  | cancelled
  | testsFailed
  | ok (locExamples : List LocalizationExample)
  deriving DecidableEq, Repr

/-- Which collaborators a `getLocalizationExamples` call invoked: the reuse prompt, the
integration-test runner, and the example extractor (`siemjManager.buildLocalizationExamples`). -/
structure LocTrace where
  prompted : Bool
  runnerInvoked : Bool
  extractorInvoked : Bool
  deriving DecidableEq, Repr

/-- Embeds the artifact-existence guard of `getLocalizationExamples`
(localizationEditorViewProvider.ts:318-321), the spec's `hasExistingArtifacts`: the
directory exists and holds at least one entry. -/
def hasExistingArtifacts (tmpDirExists : Bool) (tmpDirEntryCount : Nat) : Bool :=
  tmpDirExists && decide (0 < tmpDirEntryCount)

/-- Embeds `getLocalizationExamples` (localizationEditorViewProvider.ts:310-356). When the
artifact directory exists and is non-empty the reuse dialog is shown, and dismissing it
cancels the operation. Unless the user chose to reuse the old results the integration-test
runner is invoked, and a failed test run aborts before the extractor; otherwise the
extractor derives the examples from the artifact directory. -/
def getLocalizationExamples (env : LocEnv) : LocOutcome × LocTrace :=
  if hasExistingArtifacts env.tmpDirExists env.tmpDirEntryCount then
    match env.promptResult with
    | none => (LocOutcome.cancelled, ⟨true, false, false⟩)
    | some PromptChoice.useOldTestsResult =>
        (LocOutcome.ok env.extractedExamples, ⟨true, false, true⟩)
    | some PromptChoice.restartTests =>
        if env.testsStatus then (LocOutcome.ok env.extractedExamples, ⟨true, true, true⟩)
        else (LocOutcome.testsFailed, ⟨true, true, false⟩)
  else
    if env.testsStatus then (LocOutcome.ok env.extractedExamples, ⟨false, true, true⟩)
    else (LocOutcome.testsFailed, ⟨false, true, false⟩)

/-- The circumstances of the `buildLocalizations` catch block: whether the caught error is
an `OperationCanceledException`, and whether deleting the temporary files would fail. -/
structure CatchEnv where
  isCancelled : Bool
  cleanupFails : Bool
  deriving DecidableEq, Repr

/-- What the catch block did: whether an error dialog was shown, whether artifact cleanup
was attempted, whether a cleanup failure was logged as a warning, and whether any error
escaped the handler. -/
structure CatchTrace where
  errorDialogShown : Bool
  cleanupAttempted : Bool
  cleanupFailureLogged : Bool
  errorReRaised : Bool
  deriving DecidableEq, Repr

/-- Modelled from the spec: `ExceptionHelper.show` (helpers/exceptionHelper.ts, not in the
excerpt) surfaces a cancellation silently — no error dialog — and every other error with
full detail. -/
def exceptionHelperShowsErrorDialog (isCancelled : Bool) : Bool :=
  !isCancelled

/-- Embeds the catch block of the `buildLocalizations` command
(localizationEditorViewProvider.ts:232-246): the error is surfaced through
`ExceptionHelper.show`; a cancellation returns at once keeping the temporary files;
otherwise `FileSystemHelper.deleteAllSubDirectoriesAndFiles` is attempted and its own
failure only logged via `Log.warn`. Nothing is re-thrown. -/
def handleBuildLocalizationsError (env : CatchEnv) : CatchTrace :=
  let errorDialogShown := exceptionHelperShowsErrorDialog env.isCancelled
  if env.isCancelled then
    ⟨errorDialogShown, false, false, false⟩
  else
    ⟨errorDialogShown, true, env.cleanupFails, false⟩

/-- The provider state relevant to `updateRule`: whether a webview is open (`_view` is
set) and the current rule (`_rule`), when set. -/
structure ProviderState where
  viewOpen : Bool
  rule : Option RuleBaseItem
  deriving DecidableEq, Repr

/-- Embeds `updateRule` (localizationEditorViewProvider.ts:109-127): it succeeds only when
a view is open, a current rule is set, and the two names agree; then the previous rule's
icon path and localization examples are moved onto the new rule before it is adopted;
otherwise the state is left unchanged and `false` is returned. -/
def updateRule (st : ProviderState) (newRule : RuleBaseItem) : Bool × ProviderState :=
  match st.rule with
  | some prevRule =>
      if st.viewOpen && (prevRule.name == newRule.name) then
        let newRule1 := { newRule with iconPath := prevRule.iconPath }
        let newRule2 := { newRule1 with localizationExamples := prevRule.localizationExamples }
        (true, { st with rule := some newRule2 })
      else
        (false, st)
  | none => (false, st)

/-- A sample rule state used to evaluate the save workflow on concrete inputs. -/
def sampleRule : RuleBaseItem :=
  ⟨"Sample_rule", "old ru description", "old en description",
    [⟨"old criterion", "old ru", "old en", some "LOC-1"⟩], [⟨"ru ex", "en ex"⟩],
    "icon", ContentItemStatus.Default⟩

/-- A sample message whose two criteria become equal after trimming. -/
def duplicateMessage : LocalizationMessage :=
  ⟨"new ru", "new en", ["a", "a "], ["r1", "r2"], ["e1", "e2"], ["", ""]⟩

/-- A sample message whose trimmed criteria repeat both "a" (positions 0 and 3) and "b"
(positions 1 and 2). -/
def doubleDuplicateMessage : LocalizationMessage :=
  ⟨"", "", ["a", "b", "b", "a"], ["r", "r", "r", "r"], ["e", "e", "e", "e"], ["", "", "", ""]⟩

/-- A sample message with an empty entry batch. -/
def emptyMessage : LocalizationMessage :=
  ⟨"d", "d", [], [], [], []⟩

/-- A sample message with a single entry carrying a stable id. -/
def singleMessage : LocalizationMessage :=
  ⟨"", "", ["a"], ["line one\nline two"], ["e"], [" LOC-7 "]⟩

/-- C2: the verification classification is UNVERIFIED iff at least one produced
localization example's `ruText` satisfies the default/fallback-localization predicate;
in particular, on the empty example list the classification is VERIFIED. -/
theorem C2_classifyVerification_unverified_iff (isDefaultLocalization : String → Bool)
    (locExamples : List LocalizationExample) :
    (classifyVerification isDefaultLocalization locExamples = ContentItemStatus.Unverified ↔
      ∃ le ∈ locExamples, isDefaultLocalization le.ruText = true) ∧
    classifyVerification isDefaultLocalization [] = ContentItemStatus.Verified := by
  refine ⟨?_, rfl⟩
  unfold classifyVerification
  split
  · next h =>
    simpa [List.any_eq_true] using h
  · next h =>
    simp only [List.any_eq_true] at h
    simpa using h

/-- C10: for every rule name and content prefix (and any value of the external CRC32
function), `generateRuleObjectId` and `generatePackageObjectId` return
`<prefix>-CR-<digits>` and `<prefix>-PKG-<digits>` built from one shared `<digits>`,
which is the decimal representation of the absolute CRC32 of the rule name truncated
to at most 9 characters. -/
theorem C10_objectIds_share_digits (crc32str : String → Int)
    (ruleName contentPrefix : String) :
    ∃ objectId : String,
      KbHelper.generateRuleObjectId crc32str ruleName contentPrefix =
        contentPrefix ++ "-CR-" ++ objectId ∧
      KbHelper.generatePackageObjectId crc32str ruleName contentPrefix =
        contentPrefix ++ "-PKG-" ++ objectId ∧
      objectId = jsSubstringTo (toString (crc32str ruleName).natAbs) 9 ∧
      objectId.length ≤ 9 := by
  refine ⟨jsSubstringTo (toString (crc32str ruleName).natAbs) 9, rfl, rfl, rfl, ?_⟩
  show ((toString (crc32str ruleName).natAbs).data.take 9).length ≤ 9
  rw [List.length_take]
  exact Nat.min_le_left _ _

/-- C9: `updateRule` succeeds exactly when a view is open, a current rule is set, and the
new rule bears the same name; on success it returns `true` and adopts the new rule after
moving the previous rule's icon path and localization examples onto it; otherwise it
returns `false` and leaves the provider state unchanged. -/
theorem C9_updateRule_spec (st : ProviderState) (newRule : RuleBaseItem) :
    ((updateRule st newRule).1 = true ↔
      st.viewOpen = true ∧ ∃ prevRule, st.rule = some prevRule ∧ prevRule.name = newRule.name) ∧
    (∀ prevRule, st.rule = some prevRule → st.viewOpen = true → prevRule.name = newRule.name →
      (updateRule st newRule).2 =
        { st with rule := some { newRule with
            iconPath := prevRule.iconPath,
            localizationExamples := prevRule.localizationExamples } }) ∧
    ((updateRule st newRule).1 = false → (updateRule st newRule).2 = st) := by
  obtain ⟨viewOpen, rule⟩ := st
  cases rule with
  | none =>
    refine ⟨?_, ?_, ?_⟩
    · simp [updateRule]
    · intro prevRule h; exact absurd h (by simp)
    · intro _; rfl
  | some prevRule =>
    by_cases hname : prevRule.name = newRule.name
    · cases viewOpen with
      | false =>
        refine ⟨?_, ?_, ?_⟩
        · simp [updateRule]
        · intro r hr hv; exact absurd hv (by simp)
        · intro _; simp [updateRule]
      | true =>
        refine ⟨?_, ?_, ?_⟩
        · constructor
          · intro _
            exact ⟨rfl, prevRule, rfl, hname⟩
          · intro _
            simp [updateRule, hname]
        · intro r hr _ _
          obtain rfl : prevRule = r := by injection hr
          simp [updateRule, hname]
        · intro hfalse
          exfalso
          simp [updateRule, hname] at hfalse
    · refine ⟨?_, ?_, ?_⟩
      · constructor
        · intro h
          exfalso
          have : (prevRule.name == newRule.name) = false := beq_eq_false_iff_ne.mpr hname
          simp [updateRule, this] at h
        · rintro ⟨_, r, hr, hn⟩
          obtain rfl : prevRule = r := by injection hr
          exact absurd hn hname
      · intro r hr _ hn
        obtain rfl : prevRule = r := by injection hr
        exact absurd hn hname
      · intro _
        have : (prevRule.name == newRule.name) = false := beq_eq_false_iff_ne.mpr hname
        simp [updateRule, this]

/-- Witness for C9: with an open view, a current rule named `r`, and a new rule of the
same name, `updateRule` returns `true` and adopts the new rule carrying over the old icon
path and localization examples; evaluated at concrete inputs. -/
theorem C9_updateRule_spec_witness :
    (updateRule
        ⟨true, some ⟨"r", "", "", [], [], "old-icon", ContentItemStatus.Default⟩⟩
        ⟨"r", "d", "e", [], [⟨"ru", "en"⟩], "new-icon", ContentItemStatus.Verified⟩).1 = true ∧
    (updateRule
        ⟨true, some ⟨"r", "", "", [], [], "old-icon", ContentItemStatus.Default⟩⟩
        ⟨"r", "d", "e", [], [⟨"ru", "en"⟩], "new-icon", ContentItemStatus.Verified⟩).2 =
      ⟨true, some ⟨"r", "d", "e", [], [], "old-icon", ContentItemStatus.Verified⟩⟩ := by
  constructor
  · exact (C9_updateRule_spec
      ⟨true, some ⟨"r", "", "", [], [], "old-icon", ContentItemStatus.Default⟩⟩
      ⟨"r", "d", "e", [], [⟨"ru", "en"⟩], "new-icon", ContentItemStatus.Verified⟩).1.mpr
      ⟨rfl, ⟨"r", "", "", [], [], "old-icon", ContentItemStatus.Default⟩, rfl, rfl⟩
  · exact (C9_updateRule_spec
      ⟨true, some ⟨"r", "", "", [], [], "old-icon", ContentItemStatus.Default⟩⟩
      ⟨"r", "d", "e", [], [⟨"ru", "en"⟩], "new-icon", ContentItemStatus.Verified⟩).2.1
      ⟨"r", "", "", [], [], "old-icon", ContentItemStatus.Default⟩ rfl rfl rfl

/-- C6: the reuse decision never prompts when no prior artifacts exist — an absent or
empty artifact directory leads directly to regeneration (the test runner is invoked) —
it prompts exactly when the directory exists and is non-empty, and a dismissed prompt
yields cancellation rather than reuse or regeneration; moreover `hasExistingArtifacts`
is false on an empty directory and true once it holds one entry. -/
theorem C6_reuse_decision_spec (env : LocEnv) :
    ((getLocalizationExamples env).2.prompted = true ↔
      env.tmpDirExists = true ∧ 0 < env.tmpDirEntryCount) ∧
    (hasExistingArtifacts env.tmpDirExists env.tmpDirEntryCount = false →
      (getLocalizationExamples env).2.prompted = false ∧
      (getLocalizationExamples env).2.runnerInvoked = true) ∧
    (hasExistingArtifacts env.tmpDirExists env.tmpDirEntryCount = true →
      env.promptResult = none →
      (getLocalizationExamples env).1 = LocOutcome.cancelled ∧
      (getLocalizationExamples env).2.runnerInvoked = false ∧
      (getLocalizationExamples env).2.extractorInvoked = false) ∧
    hasExistingArtifacts true 0 = false ∧ hasExistingArtifacts true 1 = true := by
  obtain ⟨ex, cnt, pr, ts, exs⟩ := env
  cases ex
  · cases ts <;> simp [getLocalizationExamples, hasExistingArtifacts]
  · rcases Nat.eq_zero_or_pos cnt with hc | hc
    · subst hc
      cases ts <;> simp [getLocalizationExamples, hasExistingArtifacts]
    · rcases pr with _ | choice
      · cases ts <;> simp [getLocalizationExamples, hasExistingArtifacts, hc]
      · cases choice <;> cases ts <;>
          simp [getLocalizationExamples, hasExistingArtifacts, hc]

/-- Witness for C6: a non-empty artifact directory with a dismissed prompt is cancelled,
and an absent directory never prompts; evaluated at concrete environments. -/
theorem C6_reuse_decision_spec_witness :
    (getLocalizationExamples ⟨true, 1, none, true, []⟩).1 = LocOutcome.cancelled ∧
    (getLocalizationExamples ⟨false, 0, none, true, []⟩).2.prompted = false := by
  constructor
  · exact ((C6_reuse_decision_spec ⟨true, 1, none, true, []⟩).2.2.1 (by decide) rfl).1
  · exact ((C6_reuse_decision_spec ⟨false, 0, none, true, []⟩).2.1 (by decide)).1

/-- C4: whenever the integration-test runner was invoked and reported
`testsStatus = false`, `getLocalizationExamples` ends in the tests-failed error and the
example extractor (`buildLocalizationExamples`) is never invoked. -/
theorem C4_testsFailed_short_circuits (env : LocEnv)
    (hrun : (getLocalizationExamples env).2.runnerInvoked = true)
    (hfail : env.testsStatus = false) :
    (getLocalizationExamples env).1 = LocOutcome.testsFailed ∧
    (getLocalizationExamples env).2.extractorInvoked = false := by
  obtain ⟨ex, cnt, pr, ts, exs⟩ := env
  simp only at hfail
  subst hfail
  cases ex
  · simp [getLocalizationExamples, hasExistingArtifacts]
  · rcases Nat.eq_zero_or_pos cnt with hc | hc
    · subst hc
      simp [getLocalizationExamples, hasExistingArtifacts]
    · rcases pr with _ | choice
      · exfalso
        simp [getLocalizationExamples, hasExistingArtifacts, hc] at hrun
      · cases choice
        · exfalso
          simp [getLocalizationExamples, hasExistingArtifacts, hc] at hrun
        · simp [getLocalizationExamples, hasExistingArtifacts, hc]

/-- Witness for C4: with no prior artifacts and failing tests the run ends in the
tests-failed error without invoking the extractor; evaluated at a concrete environment. -/
theorem C4_testsFailed_short_circuits_witness :
    (getLocalizationExamples ⟨false, 0, none, false, []⟩).1 = LocOutcome.testsFailed ∧
    (getLocalizationExamples ⟨false, 0, none, false, []⟩).2.extractorInvoked = false :=
  C4_testsFailed_short_circuits ⟨false, 0, none, false, []⟩ rfl rfl

/-- C5: on cancellation the `buildLocalizations` error handler completes silently — no
error dialog — and does not touch the artifact directory; on every other failure cleanup
is attempted, never re-raised, and a cleanup failure is logged exactly when the deletion
fails. -/
theorem C5_cancellation_and_cleanup (env : CatchEnv) :
    (env.isCancelled = true →
      (handleBuildLocalizationsError env).errorDialogShown = false ∧
      (handleBuildLocalizationsError env).cleanupAttempted = false ∧
      (handleBuildLocalizationsError env).errorReRaised = false) ∧
    (env.isCancelled = false →
      (handleBuildLocalizationsError env).cleanupAttempted = true ∧
      (handleBuildLocalizationsError env).errorReRaised = false ∧
      ((handleBuildLocalizationsError env).cleanupFailureLogged = true ↔
        env.cleanupFails = true)) := by
  obtain ⟨c, f⟩ := env
  cases c <;> cases f <;>
    simp [handleBuildLocalizationsError, exceptionHelperShowsErrorDialog]

/-- Witness for C5: a cancelled build attempts no cleanup, and a non-cancelled failure
with failing cleanup logs the cleanup failure; evaluated at concrete environments. -/
theorem C5_cancellation_and_cleanup_witness :
    (handleBuildLocalizationsError ⟨true, true⟩).cleanupAttempted = false ∧
    (handleBuildLocalizationsError ⟨false, true⟩).cleanupFailureLogged = true := by
  constructor
  · exact ((C5_cancellation_and_cleanup ⟨true, true⟩).1 rfl).2.1
  · exact (((C5_cancellation_and_cleanup ⟨false, true⟩).2 rfl).2.2).mpr rfl

/-- `findDuplicatesAux seen l` returns `none` exactly when `l` has no internal duplicate
and no element of `l` was seen before. -/
theorem findDuplicatesAux_eq_none_iff (l : List String) :
    ∀ seen : List String, JsHelper.findDuplicatesAux seen l = none ↔
      l.Nodup ∧ ∀ x ∈ l, x ∉ seen := by
  induction l with
  | nil => intro seen; simp [JsHelper.findDuplicatesAux]
  | cons x xs ih =>
    intro seen
    rw [JsHelper.findDuplicatesAux]
    by_cases hx : x ∈ seen
    · simp [if_pos hx, hx]
    · rw [if_neg hx, ih (x :: seen)]
      simp only [List.nodup_cons, List.mem_cons, not_or]
      constructor
      · rintro ⟨hnd, hall⟩
        refine ⟨⟨?_, hnd⟩, ?_⟩
        · intro hmem
          exact (hall x hmem).1 rfl
        · intro y hy
          rcases hy with rfl | hy
          · exact hx
          · exact (hall y hy).2
      · rintro ⟨⟨hxxs, hnd⟩, hall⟩
        refine ⟨hnd, ?_⟩
        intro y hy
        constructor
        · rintro rfl; exact hxxs hy
        · exact hall y (Or.inr hy)

/-- `findDuplicates` returns `none` exactly on duplicate-free lists. -/
theorem findDuplicates_eq_none_iff (l : List String) :
    JsHelper.findDuplicates l = none ↔ l.Nodup := by
  rw [JsHelper.findDuplicates, findDuplicatesAux_eq_none_iff]
  simp

/-- When `findDuplicatesAux seen l` reports a duplicate, the reported value sits at the
first position of `l` whose value was seen before — in `seen` or earlier in `l`. -/
theorem findDuplicatesAux_some_spec (l : List String) :
    ∀ (seen : List String) (d : String), JsHelper.findDuplicatesAux seen l = some d →
      ∃ j, j < l.length ∧ l.getD j "" = d ∧
        (l.getD j "" ∈ seen ∨ ∃ i, i < j ∧ l.getD i "" = l.getD j "") ∧
        ∀ k, k < j → l.getD k "" ∉ seen ∧ ¬∃ i, i < k ∧ l.getD i "" = l.getD k "" := by
  induction l with
  | nil => intro seen d h; simp [JsHelper.findDuplicatesAux] at h
  | cons x xs ih =>
    intro seen d h
    rw [JsHelper.findDuplicatesAux] at h
    by_cases hx : x ∈ seen
    · rw [if_pos hx] at h
      injection h with h
      refine ⟨0, Nat.succ_pos _, ?_, Or.inl ?_, ?_⟩
      · simpa using h
      · simpa using hx
      · intro k hk; exact absurd hk (Nat.not_lt_zero k)
    · rw [if_neg hx] at h
      obtain ⟨j, hj, hd, hmem, hmin⟩ := ih (x :: seen) d h
      refine ⟨j + 1, Nat.succ_lt_succ hj, ?_, ?_, ?_⟩
      · simpa using hd
      · rcases hmem with hin | ⟨i, hij, hieq⟩
        · rcases List.mem_cons.mp hin with heq | hin'
          · exact Or.inr ⟨0, Nat.succ_pos _, by simpa using heq.symm⟩
          · exact Or.inl (by simpa using hin')
        · exact Or.inr ⟨i + 1, Nat.succ_lt_succ hij, by simpa using hieq⟩
      · intro k hk
        cases k with
        | zero =>
          refine ⟨by simpa using hx, ?_⟩
          rintro ⟨i, hik, -⟩
          exact absurd hik (Nat.not_lt_zero i)
        | succ k' =>
          have hk' : k' < j := Nat.lt_of_succ_lt_succ hk
          obtain ⟨h1, h2⟩ := hmin k' hk'
          constructor
          · intro hcon
            exact h1 (List.mem_cons.mpr (Or.inr (by simpa using hcon)))
          · rintro ⟨i, hik, hieq⟩
            cases i with
            | zero =>
              exact h1 (List.mem_cons.mpr (Or.inl (by simpa using hieq.symm)))
            | succ i' =>
              exact h2 ⟨i', Nat.lt_of_succ_lt_succ hik, by simpa using hieq⟩

/-- When `findDuplicates` reports a duplicate, the reported value is the value at the
first position that repeats an earlier position. -/
theorem findDuplicates_some_spec (l : List String) (d : String)
    (h : JsHelper.findDuplicates l = some d) :
    ∃ j, j < l.length ∧ l.getD j "" = d ∧
      (∃ i, i < j ∧ l.getD i "" = l.getD j "") ∧
      ∀ k, k < j → ¬∃ i, i < k ∧ l.getD i "" = l.getD k "" := by
  obtain ⟨j, hj, hd, hmem, hmin⟩ := findDuplicatesAux_some_spec l [] d h
  refine ⟨j, hj, hd, ?_, ?_⟩
  · rcases hmem with hin | hex
    · exact absurd hin (List.not_mem_nil _)
    · exact hex
  · intro k hk
    exact (hmin k hk).2

/-- A list with two equal positions makes `findDuplicates` report some duplicate. -/
theorem findDuplicates_isSome_of_dup (l : List String)
    (h : ∃ i j, i < j ∧ j < l.length ∧ l.getD i "" = l.getD j "") :
    ∃ d, JsHelper.findDuplicates l = some d := by
  obtain ⟨i, j, hij, hj, heq⟩ := h
  have hi : i < l.length := Nat.lt_trans hij hj
  rcases hfd : JsHelper.findDuplicates l with _ | d
  · exfalso
    have hnd : l.Nodup := (findDuplicates_eq_none_iff l).mp hfd
    rw [List.getD_eq_getElem l "" hi, List.getD_eq_getElem l "" hj] at heq
    have := (List.Nodup.getElem_inj_iff hnd).mp heq
    omega
  · exact ⟨d, rfl⟩

/-- The constructed batch has one entry per input criterion. -/
theorem constructedLocalizations_length (localization : LocalizationMessage) :
    (constructedLocalizations localization).length = localization.Criteria.length := by
  simp [constructedLocalizations]

/-- Counterexample to C1 as stated: on a duplicate criterion the save aborts before
constructing or persisting anything, yet the rule's ru description has already been
overwritten — the descriptions are not the same after the failed call; evaluated at a
concrete rule and message. -/
theorem C1_counterexample :
    (JsHelper.findDuplicates (duplicateMessage.Criteria.map (fun c => jsTrim c))).isSome =
      true ∧
    (saveLocalization sampleRule duplicateMessage false).rule.ruDescription ≠
      sampleRule.ruDescription := by decide

/-- C1 (amended): if the submitted criteria contain a duplicate after trimming, the save
fails — the duplicate is reported, nothing is persisted, no success notice is shown — and
the rule's localization entries, examples, name, icon and status are untouched; however
the rule's two descriptions have already been set to the trimmed submitted descriptions
before the duplicate check. -/
theorem C1_amended_duplicate_aborts (rule : RuleBaseItem)
    (localization : LocalizationMessage) (informUser : Bool)
    (hdup : ∃ i j, i < j ∧ j < (localization.Criteria.map (fun c => jsTrim c)).length ∧
      (localization.Criteria.map (fun c => jsTrim c)).getD i "" =
        (localization.Criteria.map (fun c => jsTrim c)).getD j "") :
    (saveLocalization rule localization informUser).persisted = false ∧
    (saveLocalization rule localization informUser).infoShown = false ∧
    (saveLocalization rule localization informUser).duplicateError.isSome = true ∧
    (saveLocalization rule localization informUser).rule.localizations =
      rule.localizations ∧
    (saveLocalization rule localization informUser).rule.localizationExamples =
      rule.localizationExamples ∧
    (saveLocalization rule localization informUser).rule.name = rule.name ∧
    (saveLocalization rule localization informUser).rule.iconPath = rule.iconPath ∧
    (saveLocalization rule localization informUser).rule.status = rule.status ∧
    (saveLocalization rule localization informUser).rule.ruDescription =
      jsTrim localization.RuDescription ∧
    (saveLocalization rule localization informUser).rule.enDescription =
      jsTrim localization.EnDescription := by
  obtain ⟨d, hd⟩ := findDuplicates_isSome_of_dup _ hdup
  simp [saveLocalization, hd]

/-- Witness for C1 (amended): the duplicate batch `["a", "a "]` aborts the save with
nothing persisted and the entry set intact; evaluated at a concrete rule and message. -/
theorem C1_amended_duplicate_aborts_witness :
    (saveLocalization sampleRule duplicateMessage false).persisted = false ∧
    (saveLocalization sampleRule duplicateMessage false).rule.localizations =
      sampleRule.localizations :=
  ⟨(C1_amended_duplicate_aborts sampleRule duplicateMessage false
      ⟨0, 1, by decide, by decide, by decide⟩).1,
    (C1_amended_duplicate_aborts sampleRule duplicateMessage false
      ⟨0, 1, by decide, by decide, by decide⟩).2.2.2.1⟩

/-- Counterexample to C3 as stated: the trimmed criteria of
`["a", "b", "b", "a"]` are equal at positions 0 < 3, yet the reported duplicate is not
the value at position 3 — the first duplicate position in input order (position 2,
value "b") wins; evaluated at a concrete rule and message. -/
theorem C3_counterexample :
    (0 : Nat) < 3 ∧
    3 < (doubleDuplicateMessage.Criteria.map (fun c => jsTrim c)).length ∧
    (doubleDuplicateMessage.Criteria.map (fun c => jsTrim c)).getD 0 "" =
      (doubleDuplicateMessage.Criteria.map (fun c => jsTrim c)).getD 3 "" ∧
    ¬((saveLocalization sampleRule doubleDuplicateMessage false).duplicateError =
      some ((doubleDuplicateMessage.Criteria.map (fun c => jsTrim c)).getD 3 "")) := by
  decide

/-- C3 (amended): duplicate detection operates on trimmed criteria; whenever the trimmed
criteria agree at two positions i < j, validation fails and the reported duplicate is the
trimmed value at the first position that repeats an earlier one (for `["a", "a "]` this
is the trimmed value "a" of the later occurrence at position 1). -/
theorem C3_first_duplicate_reported (rule : RuleBaseItem)
    (localization : LocalizationMessage) (informUser : Bool)
    (hdup : ∃ i j, i < j ∧ j < (localization.Criteria.map (fun c => jsTrim c)).length ∧
      (localization.Criteria.map (fun c => jsTrim c)).getD i "" =
        (localization.Criteria.map (fun c => jsTrim c)).getD j "") :
    ∃ j, j < (localization.Criteria.map (fun c => jsTrim c)).length ∧
      (∃ i, i < j ∧ (localization.Criteria.map (fun c => jsTrim c)).getD i "" =
        (localization.Criteria.map (fun c => jsTrim c)).getD j "") ∧
      (∀ k, k < j → ¬∃ i, i < k ∧
        (localization.Criteria.map (fun c => jsTrim c)).getD i "" =
          (localization.Criteria.map (fun c => jsTrim c)).getD k "") ∧
      (saveLocalization rule localization informUser).duplicateError =
        some ((localization.Criteria.map (fun c => jsTrim c)).getD j "") := by
  obtain ⟨d, hd⟩ := findDuplicates_isSome_of_dup _ hdup
  obtain ⟨j, hj, hdj, hex, hmin⟩ := findDuplicates_some_spec _ d hd
  refine ⟨j, hj, hex, hmin, ?_⟩
  have hde : (saveLocalization rule localization informUser).duplicateError = some d := by
    simp [saveLocalization, hd]
  rw [hde, hdj]

/-- Witness for C3 (amended): on the batch `["a", "a "]` the reported duplicate is the
trimmed value "a"; evaluated at a concrete rule and message. -/
theorem C3_first_duplicate_reported_witness :
    (∃ j, j < (duplicateMessage.Criteria.map (fun c => jsTrim c)).length ∧
      (∃ i, i < j ∧ (duplicateMessage.Criteria.map (fun c => jsTrim c)).getD i "" =
        (duplicateMessage.Criteria.map (fun c => jsTrim c)).getD j "") ∧
      (∀ k, k < j → ¬∃ i, i < k ∧
        (duplicateMessage.Criteria.map (fun c => jsTrim c)).getD i "" =
          (duplicateMessage.Criteria.map (fun c => jsTrim c)).getD k "") ∧
      (saveLocalization sampleRule duplicateMessage false).duplicateError =
        some ((duplicateMessage.Criteria.map (fun c => jsTrim c)).getD j "")) ∧
    (saveLocalization sampleRule duplicateMessage false).duplicateError = some "a" :=
  ⟨C3_first_duplicate_reported sampleRule duplicateMessage false
      ⟨0, 1, by decide, by decide, by decide⟩,
    by decide⟩

/-- C7: an empty submitted batch leaves the rule's localization-entry set unchanged — an
empty submission is a no-op on the entries, not a clear-all — while a non-empty
duplicate-free batch replaces the entire set wholesale with the constructed entries. -/
theorem C7_empty_noop_nonempty_replaces (rule : RuleBaseItem)
    (localization : LocalizationMessage) (informUser : Bool) :
    (localization.Criteria = [] →
      (saveLocalization rule localization informUser).rule.localizations =
        rule.localizations) ∧
    (localization.Criteria ≠ [] →
      (localization.Criteria.map (fun c => jsTrim c)).Nodup →
      (saveLocalization rule localization informUser).rule.localizations =
        constructedLocalizations localization) := by
  constructor
  · intro hemp
    have h1 : JsHelper.findDuplicates (localization.Criteria.map (fun c => jsTrim c)) =
        none := by
      rw [hemp]; rfl
    have h2 : (constructedLocalizations localization).length = 0 := by
      rw [constructedLocalizations_length, hemp]; rfl
    simp [saveLocalization, h1, h2]
  · intro hne hnd
    have h1 : JsHelper.findDuplicates (localization.Criteria.map (fun c => jsTrim c)) =
        none := (findDuplicates_eq_none_iff _).mpr hnd
    have h2 : (constructedLocalizations localization).length ≠ 0 := by
      rw [constructedLocalizations_length]
      simpa [List.length_eq_zero] using hne
    simp [saveLocalization, h1, h2]

/-- Witness for C7: the empty batch keeps the sample rule's single entry, and the
one-entry batch replaces the set with the constructed entry; evaluated at concrete
inputs. -/
theorem C7_empty_noop_nonempty_replaces_witness :
    (saveLocalization sampleRule emptyMessage false).rule.localizations =
      sampleRule.localizations ∧
    (saveLocalization sampleRule singleMessage false).rule.localizations =
      constructedLocalizations singleMessage :=
  ⟨(C7_empty_noop_nonempty_replaces sampleRule emptyMessage false).1 rfl,
    (C7_empty_noop_nonempty_replaces sampleRule singleMessage false).2
      (by decide) (by decide)⟩

/-- C8: for equal-length inputs whose trimmed criteria are duplicate-free, the save
validates successfully — no duplicate is reported and persistence runs — and constructs
exactly one localization entry per input index, in input order: entry i carries the
trimmed criterion at index i, the one-line-normalized ru and en texts at index i, and its
localization id is the trimmed ids[i] exactly when that value is non-empty. -/
theorem C8_validation_success (rule : RuleBaseItem) (localization : LocalizationMessage)
    (informUser : Bool)
    (hru : localization.RuLocalizations.length = localization.Criteria.length)
    (hen : localization.EnLocalizations.length = localization.Criteria.length)
    (hid : localization.LocalizationIds.length = localization.Criteria.length)
    (hnd : (localization.Criteria.map (fun c => jsTrim c)).Nodup) :
    (saveLocalization rule localization informUser).duplicateError = none ∧
    (saveLocalization rule localization informUser).persisted = true ∧
    (constructedLocalizations localization).length = localization.Criteria.length ∧
    ∀ i, i < localization.Criteria.length →
      (constructedLocalizations localization).getD i (Localization.create "" "" "") =
        { criteria := jsTrim (localization.Criteria.getD i ""),
          ruText :=
            StringHelper.textToOneLineAndTrim (localization.RuLocalizations.getD i ""),
          enText :=
            StringHelper.textToOneLineAndTrim (localization.EnLocalizations.getD i ""),
          localizationId :=
            if jsTrim (localization.LocalizationIds.getD i "") = "" then none
            else some (jsTrim (localization.LocalizationIds.getD i "")) } := by
  have h1 : JsHelper.findDuplicates (localization.Criteria.map (fun c => jsTrim c)) =
      none := (findDuplicates_eq_none_iff _).mpr hnd
  refine ⟨?_, ?_, constructedLocalizations_length localization, ?_⟩
  · simp [saveLocalization, h1]
  · simp [saveLocalization, h1]
  · intro i hi
    have hiru : i < localization.RuLocalizations.length := hru ▸ hi
    have hien : i < localization.EnLocalizations.length := hen ▸ hi
    have hiid : i < localization.LocalizationIds.length := hid ▸ hi
    have hmi : i < (constructedLocalizations localization).length := by
      rw [constructedLocalizations_length]; exact hi
    have hmapD : ∀ (l : List String) (f : String → String), i < l.length →
        (l.map f).getD i "" = f (l.getD i "") := by
      intro l f h
      rw [List.getD_eq_getElem (l.map f) "" (by simpa using h),
        List.getD_eq_getElem l "" h, List.getElem_map]
    rw [List.getD_eq_getElem _ _ hmi]
    simp only [constructedLocalizations, List.getElem_mapIdx, List.getElem_map,
      Localization.create, Localization.setLocalizationId]
    rw [hmapD localization.RuLocalizations _ hiru,
      hmapD localization.EnLocalizations _ hien,
      hmapD localization.LocalizationIds _ hiid,
      List.getD_eq_getElem localization.Criteria "" hi]
    split
    · next heq => simp [heq]
    · next heq => simp [heq]

/-- Witness for C8: the one-entry batch with criterion "a", a two-line ru text and the
id " LOC-7 " builds exactly the entry with trimmed criterion, one-line texts and id
"LOC-7"; evaluated at concrete inputs. -/
theorem C8_validation_success_witness :
    (saveLocalization sampleRule singleMessage false).persisted = true ∧
    (constructedLocalizations singleMessage).getD 0 (Localization.create "" "" "") =
      { criteria := jsTrim (singleMessage.Criteria.getD 0 ""),
        ruText := StringHelper.textToOneLineAndTrim (singleMessage.RuLocalizations.getD 0 ""),
        enText := StringHelper.textToOneLineAndTrim (singleMessage.EnLocalizations.getD 0 ""),
        localizationId :=
          if jsTrim (singleMessage.LocalizationIds.getD 0 "") = "" then none
          else some (jsTrim (singleMessage.LocalizationIds.getD 0 "")) } ∧
    (constructedLocalizations singleMessage).getD 0 (Localization.create "" "" "") =
      ⟨"a", "line one line two", "e", some "LOC-7"⟩ :=
  ⟨(C8_validation_success sampleRule singleMessage false rfl rfl rfl (by decide)).2.1,
    (C8_validation_success sampleRule singleMessage false rfl rfl rfl (by decide)).2.2.2
      0 (by decide),
    by decide⟩

end VscodeXp

example : VscodeXp.jsTrim "a " = "a" := by decide

example : VscodeXp.jsTrim " a\n" = "a" := rfl

example : VscodeXp.jsSubstringTo ">123456789" 9 = ">12345678" := by decide

example (s : String) : (VscodeXp.jsSubstringTo s 9).length ≤ 9 := by
  show (s.data.take 9).length ≤ 9
  rw [List.length_take]
  exact Nat.min_le_left 9 s.data.length
